import Mathlib

/-
Shallow embedding of the client-side interactivity layer of the resume page
(src/script.js, and the variant file src/unnamed/part_000 where it differs).
Each module's DOM state is modelled explicitly; event handlers become pure
state-transition functions translated from the source.
-/

namespace Resume

/-! ### Contact form (script.js, initContactForm)

A form field is modelled by the presence of the three DOM elements the error
helpers query (config.el, config.errorEl, config.groupEl), the input value and
the visible error state: the aria-invalid attribute, the textContent of the
error element, and the form-group--error class on the group element. -/

/-- Identifiers of the three contact-form fields, in document order. -/
inductive FieldId
  | name
  | email
  | message
deriving DecidableEq, Repr

/-- State of one form field together with the presence of the DOM elements
used by the error helpers. -/
structure FieldDom where
  inputPresent : Bool
  errorElPresent : Bool
  groupElPresent : Bool
  value : String
  ariaInvalid : Bool
  errorText : String
  groupError : Bool
deriving DecidableEq, Repr

/-- JavaScript String.prototype.trim: strip leading and trailing whitespace.
(The JS \s class also covers rare Unicode spaces; all values considered here
are ASCII, where the two notions agree.) -/
def jsTrim (s : String) : String :=
  ⟨((s.data.dropWhile Char.isWhitespace).reverse.dropWhile Char.isWhitespace).reverse⟩

/-- validators.name.validate from src/script.js. -/
def validateName (val : String) : Option String :=
  if jsTrim val = "" then some "Name is required."
  else if (jsTrim val).length < 2 then some "Name must be at least 2 characters."
  else none

/-- A character admitted by the bracket classes of the email pattern:
anything that is neither whitespace nor an at sign. -/
def emailChar (c : Char) : Bool := !c.isWhitespace && c != '@'

/-- The email test: the string must consist of one or more non-space
non-at characters, one at sign, then one or more such characters containing
a dot that is neither directly after the at sign nor last. Because the
bracket class excludes the at sign, a matching string has exactly one at
sign and no whitespace anywhere. -/
def matchesEmailPattern (s : String) : Bool :=
  let cs := s.data
  cs.count '@' == 1 &&
  cs.all (fun c => !c.isWhitespace) &&
  !(cs.takeWhile (fun c => c != '@')).isEmpty &&
  (let afterAt := (cs.dropWhile (fun c => c != '@')).drop 1
   !afterAt.isEmpty && ((afterAt.drop 1).dropLast.contains '.'))

/-- validators.email.validate from src/script.js. -/
def validateEmail (val : String) : Option String :=
  if jsTrim val = "" then some "Email address is required."
  else if !matchesEmailPattern (jsTrim val) then some "Please enter a valid email address."
  else none

/-- validators.message.validate from src/script.js. -/
def validateMessage (val : String) : Option String :=
  if jsTrim val = "" then some "A message is required."
  else if (jsTrim val).length < 10 then some "Message must be at least 10 characters."
  else none

/-- showError: guards on the three elements, then sets aria-invalid,
the error text and the group error marker. -/
def showError (f : FieldDom) (message : String) : FieldDom :=
  if f.inputPresent && f.errorElPresent && f.groupElPresent then
    { f with ariaInvalid := true, errorText := message, groupError := true }
  else f

/-- clearError: guards on the three elements, then removes aria-invalid,
empties the error text and removes the group error marker. -/
def clearError (f : FieldDom) : FieldDom :=
  if f.inputPresent && f.errorElPresent && f.groupElPresent then
    { f with ariaInvalid := false, errorText := "", groupError := false }
  else f

/-- validateField: returns null untouched when the input element is missing;
otherwise runs the rule on the current value, shows or clears the error, and
returns the rule's result. -/
def validateField (validate : String → Option String) (f : FieldDom) :
    FieldDom × Option String :=
  if !f.inputPresent then (f, none)
  else
    match validate f.value with
    | some err => (showError f err, some err)
    | none => (clearError f, none)

/-- The three fields of the contact form. -/
structure FormState where
  nameF : FieldDom
  emailF : FieldDom
  messageF : FieldDom
deriving DecidableEq, Repr

/-- validateAll: validates every field in insertion order (name, email,
message) and reports whether every result was null. -/
def validateAll (st : FormState) : FormState × Bool :=
  let n := validateField validateName st.nameF
  let e := validateField validateEmail st.emailF
  let m := validateField validateMessage st.messageF
  ({ nameF := n.1, emailF := e.1, messageF := m.1 },
   n.2.isNone && e.2.isNone && m.2.isNone)

/-- All three DOM elements of a field are present. -/
def elemsPresent (f : FieldDom) : Prop :=
  f.inputPresent = true ∧ f.errorElPresent = true ∧ f.groupElPresent = true

instance (f : FieldDom) : Decidable (elemsPresent f) := by
  unfold elemsPresent; infer_instance

/-- All nine field elements of the form are present. -/
def allElemsPresent (st : FormState) : Prop :=
  elemsPresent st.nameF ∧ elemsPresent st.emailF ∧ elemsPresent st.messageF

instance (st : FormState) : Decidable (allElemsPresent st) := by
  unfold allElemsPresent; infer_instance

/-- Claim C1: with name value "", email value "a@b.c" and message value
"this is long enough", validateAll reports the form invalid, afterwards only
the name field is in error state (aria-invalid set and error text stored)
while the email and message fields have their error state cleared, and the
email value "a@b.c" satisfies the email pattern. -/
theorem c1_validateAll_only_name_error (st : FormState)
    (hp : allElemsPresent st)
    (hn : st.nameF.value = "")
    (he : st.emailF.value = "a@b.c")
    (hm : st.messageF.value = "this is long enough") :
    (validateAll st).2 = false ∧
    (validateAll st).1.nameF.ariaInvalid = true ∧
    (validateAll st).1.nameF.errorText = "Name is required." ∧
    (validateAll st).1.nameF.groupError = true ∧
    (validateAll st).1.emailF.ariaInvalid = false ∧
    (validateAll st).1.emailF.errorText = "" ∧
    (validateAll st).1.emailF.groupError = false ∧
    (validateAll st).1.messageF.ariaInvalid = false ∧
    (validateAll st).1.messageF.errorText = "" ∧
    (validateAll st).1.messageF.groupError = false ∧
    matchesEmailPattern "a@b.c" = true := by
  obtain ⟨⟨h1, h2, h3⟩, ⟨h4, h5, h6⟩, ⟨h7, h8, h9⟩⟩ := hp
  have hvn : validateName "" = some "Name is required." := by decide
  have hve : validateEmail "a@b.c" = none := by decide
  have hvm : validateMessage "this is long enough" = none := by decide
  refine ⟨?_, ?_, ?_, ?_, ?_, ?_, ?_, ?_, ?_, ?_, by decide⟩ <;>
    simp [validateAll, validateField, hn, he, hm, hvn, hve, hvm,
      showError, clearError, h1, h2, h3, h4, h5, h6, h7, h8, h9]

/-- Witness for C1 at a concrete form state. -/
theorem c1_witness :
    let f0 : FieldDom :=
      { inputPresent := true, errorElPresent := true, groupElPresent := true,
        value := "", ariaInvalid := false, errorText := "", groupError := false }
    let st : FormState :=
      { nameF := f0,
        emailF := { f0 with value := "a@b.c", ariaInvalid := true },
        messageF := { f0 with value := "this is long enough" } }
    (validateAll st).2 = false ∧ (validateAll st).1.nameF.ariaInvalid = true ∧
      (validateAll st).1.emailF.ariaInvalid = false :=
  ⟨(c1_validateAll_only_name_error _ (by decide) rfl rfl rfl).1,
   (c1_validateAll_only_name_error _ (by decide) rfl rfl rfl).2.1,
   (c1_validateAll_only_name_error _ (by decide) rfl rfl rfl).2.2.2.2.1⟩

/-! #### Submit lifecycle -/

/-- State of the submit button: the data-loading attribute, the disabled
property and the text content. -/
structure BtnState where
  dataLoading : Bool
  disabled : Bool
  label : String
deriving DecidableEq, Repr

/-- setSubmitLoading: rewrites all three button properties from the flag. -/
def setSubmitLoading (isLoading : Bool) : BtnState :=
  { dataLoading := isLoading, disabled := isLoading,
    label := if isLoading then "Sending…" else "Send Message" }

/-- Where a handler moved keyboard focus. -/
inductive FocusTarget
  | fieldFocus (f : FieldId)
  | successFocus
deriving DecidableEq, Repr

/-- Page-level state touched by the submit handler. submitErrorEl is the
text of the top-level error element, none while that element does not exist;
errElCreations counts how many times document.createElement ran for it. -/
structure PageState where
  form : FormState
  btn : BtnState
  groupsHidden : Bool
  actionsHidden : Bool
  successHidden : Bool
  submitErrorEl : Option String
  errElCreations : Nat
deriving DecidableEq, Repr

/-- The first form element carrying aria-invalid="true", in document order. -/
def firstInvalid (st : FormState) : Option FieldId :=
  if st.nameF.ariaInvalid then some .name
  else if st.emailF.ariaInvalid then some .email
  else if st.messageF.ariaInvalid then some .message
  else none

/-- showSubmitError: creates the top-level error element on first use,
reuses it afterwards, and sets its text. -/
def showSubmitError (message : String) (p : PageState) : PageState :=
  match p.submitErrorEl with
  | none =>
      { p with submitErrorEl := some message, errElCreations := p.errElCreations + 1 }
  | some _ => { p with submitErrorEl := some message }

/-- showSuccess: hides every form group and the form actions, reveals the
success element (focus move is reported by the caller). -/
def showSuccess (p : PageState) : PageState :=
  { p with groupsHidden := true, actionsHidden := true, successHidden := false }

/-- simulateSend resolves unconditionally after its timer. -/
def simulateSendResolves : Bool := true

/-- Observable outcome of one run of the submit handler. btnAtSend records
the button state at the moment the asynchronous send begins, if it begins. -/
structure SubmitResult where
  state : PageState
  focusMoved : Option FocusTarget
  defaultCancelled : Bool
  sendStarted : Bool
  btnAtSend : Option BtnState
deriving DecidableEq, Repr

/-- The submit handler: preventDefault, validateAll, then either focus the
first invalid field, or enter the loading state and run the send, whose
outcome (resolve or reject) is the sendOk parameter. -/
def handleSubmit (sendOk : Bool) (p : PageState) : SubmitResult :=
  let v := validateAll p.form
  if !v.2 then
    { state := { p with form := v.1 },
      focusMoved := (firstInvalid v.1).map FocusTarget.fieldFocus,
      defaultCancelled := true, sendStarted := false, btnAtSend := none }
  else
    let p1 : PageState := { p with form := v.1, btn := setSubmitLoading true }
    if sendOk then
      { state := showSuccess p1, focusMoved := some .successFocus,
        defaultCancelled := true, sendStarted := true, btnAtSend := some p1.btn }
    else
      let p2 := showSubmitError
        "Something went wrong. Please try again or email me directly." p1
      { state := { p2 with btn := setSubmitLoading false }, focusMoved := none,
        defaultCancelled := true, sendStarted := true, btnAtSend := some p1.btn }

/-! #### Helper lemmas about validation -/

/-- The result flag of validateField only looks at the input's presence and
value. -/
theorem validateField_snd (validate : String → Option String) (f : FieldDom) :
    (validateField validate f).2 =
      if f.inputPresent then validate f.value else none := by
  unfold validateField
  cases hip : f.inputPresent <;> cases hv : validate f.value <;> simp [hv]

/-- validateField never changes the value nor the element presence flags. -/
theorem validateField_preserves (validate : String → Option String) (f : FieldDom) :
    (validateField validate f).1.value = f.value ∧
    (validateField validate f).1.inputPresent = f.inputPresent ∧
    (validateField validate f).1.errorElPresent = f.errorElPresent ∧
    (validateField validate f).1.groupElPresent = f.groupElPresent := by
  unfold validateField showError clearError
  cases hip : f.inputPresent <;> cases hv : validate f.value <;>
    cases hep : f.errorElPresent <;> cases hgp : f.groupElPresent <;>
    simp [hv, hip, hep, hgp]

/-- With all elements present, the error flags after validateAll mirror the
three rules, and the validity flag is their conjunction. -/
theorem validateAll_flags (st : FormState) (hp : allElemsPresent st) :
    (validateAll st).1.nameF.ariaInvalid = (validateName st.nameF.value).isSome ∧
    (validateAll st).1.emailF.ariaInvalid = (validateEmail st.emailF.value).isSome ∧
    (validateAll st).1.messageF.ariaInvalid = (validateMessage st.messageF.value).isSome ∧
    (validateAll st).2 =
      ((validateName st.nameF.value).isNone && (validateEmail st.emailF.value).isNone &&
        (validateMessage st.messageF.value).isNone) := by
  obtain ⟨⟨h1, h2, h3⟩, ⟨h4, h5, h6⟩, ⟨h7, h8, h9⟩⟩ := hp
  unfold validateAll validateField showError clearError
  cases hvn : validateName st.nameF.value <;>
    cases hve : validateEmail st.emailF.value <;>
    cases hvm : validateMessage st.messageF.value <;>
    simp [h1, h2, h3, h4, h5, h6, h7, h8, h9]

/-- Claim C2: when validateAll reports the form invalid, the submit handler
cancels the default action, moves focus to the first field carrying
aria-invalid in document order (which exists, and is the name field whenever
the name rule fails), and no send starts: the loading state is never entered
and the button is untouched. -/
theorem c2_invalid_submission_blocked (sendOk : Bool) (p : PageState)
    (hp : allElemsPresent p.form)
    (hv : (validateAll p.form).2 = false) :
    (handleSubmit sendOk p).defaultCancelled = true ∧
    (handleSubmit sendOk p).sendStarted = false ∧
    (handleSubmit sendOk p).btnAtSend = none ∧
    (handleSubmit sendOk p).state.btn = p.btn ∧
    (handleSubmit sendOk p).focusMoved =
      (firstInvalid (validateAll p.form).1).map FocusTarget.fieldFocus ∧
    (firstInvalid (validateAll p.form).1).isSome = true ∧
    ((validateName p.form.nameF.value).isSome = true →
      (handleSubmit sendOk p).focusMoved = some (FocusTarget.fieldFocus FieldId.name)) := by
  obtain ⟨hfn, hfe, hfm, hflag⟩ := validateAll_flags p.form hp
  have hfirst : (firstInvalid (validateAll p.form).1).isSome = true := by
    rw [hflag] at hv
    unfold firstInvalid
    rw [hfn, hfe, hfm]
    cases hvn : validateName p.form.nameF.value <;>
      cases hve : validateEmail p.form.emailF.value <;>
      cases hvm : validateMessage p.form.messageF.value <;>
      simp_all
  have hname : (validateName p.form.nameF.value).isSome = true →
      (firstInvalid (validateAll p.form).1) = some FieldId.name := by
    intro h
    unfold firstInvalid
    rw [hfn, h]
    simp
  refine ⟨?_, ?_, ?_, ?_, ?_, hfirst, ?_⟩
  · simp [handleSubmit, hv]
  · simp [handleSubmit, hv]
  · simp [handleSubmit, hv]
  · simp [handleSubmit, hv]
  · simp [handleSubmit, hv]
  · intro h
    simp [handleSubmit, hv, hname h]

/-- Witness for C2: name empty, email malformed, message too short; all
three rules fail and focus lands on the name field. -/
theorem c2_witness :
    let f0 : FieldDom :=
      { inputPresent := true, errorElPresent := true, groupElPresent := true,
        value := "", ariaInvalid := false, errorText := "", groupError := false }
    let p : PageState :=
      { form :=
          { nameF := f0,
            emailF := { f0 with value := "not-an-email" },
            messageF := { f0 with value := "short" } },
        btn := setSubmitLoading false, groupsHidden := false, actionsHidden := false,
        successHidden := true, submitErrorEl := none, errElCreations := 0 }
    (handleSubmit true p).sendStarted = false ∧
      (handleSubmit true p).focusMoved = some (FocusTarget.fieldFocus FieldId.name) := by
  refine ⟨(c2_invalid_submission_blocked true _ (by decide) (by decide)).2.1, ?_⟩
  exact (c2_invalid_submission_blocked true _ (by decide) (by decide)).2.2.2.2.2.2 (by decide)

/-- The name field of validateAll's result comes from validateField. -/
theorem validateAll_nameF (st : FormState) :
    (validateAll st).1.nameF = (validateField validateName st.nameF).1 := rfl

/-- The email field of validateAll's result comes from validateField. -/
theorem validateAll_emailF (st : FormState) :
    (validateAll st).1.emailF = (validateField validateEmail st.emailF).1 := rfl

/-- The message field of validateAll's result comes from validateField. -/
theorem validateAll_messageF (st : FormState) :
    (validateAll st).1.messageF = (validateField validateMessage st.messageF).1 := rfl

/-- The validity flag only looks at input presence and values. -/
theorem validateAll_snd_formula (st : FormState) :
    (validateAll st).2 =
      ((if st.nameF.inputPresent then validateName st.nameF.value else none).isNone &&
       (if st.emailF.inputPresent then validateEmail st.emailF.value else none).isNone &&
       (if st.messageF.inputPresent then validateMessage st.messageF.value else none).isNone) := by
  unfold validateAll
  simp [validateField_snd]

/-- Running validateAll twice reports the same validity: the first run
changes neither values nor element presence. -/
theorem validateAll_stable (st : FormState) :
    (validateAll (validateAll st).1).2 = (validateAll st).2 := by
  rw [validateAll_snd_formula, validateAll_snd_formula,
    validateAll_nameF, validateAll_emailF, validateAll_messageF,
    (validateField_preserves validateName st.nameF).1,
    (validateField_preserves validateName st.nameF).2.1,
    (validateField_preserves validateEmail st.emailF).1,
    (validateField_preserves validateEmail st.emailF).2.1,
    (validateField_preserves validateMessage st.messageF).1,
    (validateField_preserves validateMessage st.messageF).2.1]

/-- Claim C3: on a submission with all three fields valid, the button enters
the loading state (data-loading, disabled, label "Sending…") before the send
starts, and after the send resolves all form groups and the form actions are
hidden, the success element is revealed and focus moves to it. -/
theorem c3_valid_submission_success (p : PageState)
    (hv : (validateAll p.form).2 = true) :
    (handleSubmit simulateSendResolves p).btnAtSend =
      some { dataLoading := true, disabled := true, label := "Sending…" } ∧
    (handleSubmit simulateSendResolves p).sendStarted = true ∧
    (handleSubmit simulateSendResolves p).state.groupsHidden = true ∧
    (handleSubmit simulateSendResolves p).state.actionsHidden = true ∧
    (handleSubmit simulateSendResolves p).state.successHidden = false ∧
    (handleSubmit simulateSendResolves p).focusMoved = some FocusTarget.successFocus := by
  simp [handleSubmit, hv, simulateSendResolves, showSuccess, setSubmitLoading]

/-- Witness for C3 at a concrete all-valid form. -/
theorem c3_witness :
    let f0 : FieldDom :=
      { inputPresent := true, errorElPresent := true, groupElPresent := true,
        value := "Sam Pittman", ariaInvalid := false, errorText := "", groupError := false }
    let p : PageState :=
      { form :=
          { nameF := f0,
            emailF := { f0 with value := "sam@example.com" },
            messageF := { f0 with value := "Hello, this is a long enough message." } },
        btn := setSubmitLoading false, groupsHidden := false, actionsHidden := false,
        successHidden := true, submitErrorEl := none, errElCreations := 0 }
    (handleSubmit simulateSendResolves p).state.successHidden = false ∧
      (handleSubmit simulateSendResolves p).btnAtSend =
        some { dataLoading := true, disabled := true, label := "Sending…" } := by
  refine ⟨(c3_valid_submission_success _ (by decide)).2.2.2.2.1, ?_⟩
  exact (c3_valid_submission_success _ (by decide)).1

/-- Claim C4: when the send rejects, the top-level error message is shown
(the element is created on first use and reused on a second failure), the
submit button is restored to its idle interactive state, and the three field
values are unchanged. -/
theorem c4_send_failure_recovery (p : PageState)
    (hv : (validateAll p.form).2 = true)
    (hnoerr : p.submitErrorEl = none) :
    (handleSubmit false p).state.submitErrorEl =
      some "Something went wrong. Please try again or email me directly." ∧
    (handleSubmit false p).state.errElCreations = p.errElCreations + 1 ∧
    (handleSubmit false p).state.btn =
      { dataLoading := false, disabled := false, label := "Send Message" } ∧
    (handleSubmit false p).state.form.nameF.value = p.form.nameF.value ∧
    (handleSubmit false p).state.form.emailF.value = p.form.emailF.value ∧
    (handleSubmit false p).state.form.messageF.value = p.form.messageF.value ∧
    (handleSubmit false (handleSubmit false p).state).state.errElCreations =
      (handleSubmit false p).state.errElCreations := by
  have hv2 : (validateAll (validateAll p.form).1).2 = true := by
    rw [validateAll_stable]; exact hv
  refine ⟨?_, ?_, ?_, ?_, ?_, ?_, ?_⟩
  · simp [handleSubmit, hv, showSubmitError, hnoerr, setSubmitLoading]
  · simp [handleSubmit, hv, showSubmitError, hnoerr, setSubmitLoading]
  · simp [handleSubmit, hv, showSubmitError, hnoerr, setSubmitLoading]
  · simp [handleSubmit, hv, showSubmitError, hnoerr, setSubmitLoading,
      validateAll_nameF, (validateField_preserves validateName p.form.nameF).1]
  · simp [handleSubmit, hv, showSubmitError, hnoerr, setSubmitLoading,
      validateAll_emailF, (validateField_preserves validateEmail p.form.emailF).1]
  · simp [handleSubmit, hv, showSubmitError, hnoerr, setSubmitLoading,
      validateAll_messageF, (validateField_preserves validateMessage p.form.messageF).1]
  · simp [handleSubmit, hv, hv2, showSubmitError, hnoerr, setSubmitLoading]

/-- Witness for C4 at a concrete all-valid form without a prior error element. -/
theorem c4_witness :
    let f0 : FieldDom :=
      { inputPresent := true, errorElPresent := true, groupElPresent := true,
        value := "Sam Pittman", ariaInvalid := false, errorText := "", groupError := false }
    let p : PageState :=
      { form :=
          { nameF := f0,
            emailF := { f0 with value := "sam@example.com" },
            messageF := { f0 with value := "Hello, this is a long enough message." } },
        btn := setSubmitLoading false, groupsHidden := false, actionsHidden := false,
        successHidden := true, submitErrorEl := none, errElCreations := 0 }
    (handleSubmit false p).state.errElCreations = 1 ∧
      (handleSubmit false p).state.form.nameF.value = "Sam Pittman" := by
  refine ⟨(c4_send_failure_recovery _ (by decide) rfl).2.1, ?_⟩
  exact (c4_send_failure_recovery _ (by decide) rfl).2.2.2.1

/-! #### Live correction listeners -/

/-- The input listener: by the time it runs the element's value has already
changed; it clears the error only when aria-invalid is currently "true",
and never runs the rule. -/
def onInput (v : String) (f : FieldDom) : FieldDom :=
  let f2 : FieldDom := { f with value := v }
  if f2.ariaInvalid then clearError f2 else f2

/-- The blur listener: runs validateField for the field. -/
def onBlur (validate : String → Option String) (f : FieldDom) : FieldDom :=
  (validateField validate f).1

/-- Claim C5: while a field is marked invalid, any input event clears its
error marker, error text and invalid flag without running its rule (the
clearing holds for every new value, including ones every rule rejects); a
field not marked invalid is left unchanged apart from its value; the rule
runs again on blur, re-marking the field when the value is still invalid. -/
theorem c5_input_clears_optimistically (v : String) (f : FieldDom)
    (hp : elemsPresent f) :
    (f.ariaInvalid = true →
      onInput v f =
        { f with value := v, ariaInvalid := false, errorText := "", groupError := false }) ∧
    (f.ariaInvalid = false → onInput v f = { f with value := v }) ∧
    (∀ validate : String → Option String, ∀ msg : String,
      validate f.value = some msg →
        onBlur validate f = { f with ariaInvalid := true, errorText := msg, groupError := true }) := by
  obtain ⟨h1, h2, h3⟩ := hp
  refine ⟨?_, ?_, ?_⟩
  · intro hinv
    simp [onInput, clearError, hinv, h1, h2, h3]
  · intro hinv
    simp [onInput, hinv]
  · intro validate msg hmsg
    simp [onBlur, validateField, showError, hmsg, h1, h2, h3]

/-- Witness for C5: an invalid name field is cleared by an input event even
though the new value still fails the name rule, and blur re-marks it. -/
theorem c5_witness :
    let f : FieldDom :=
      { inputPresent := true, errorElPresent := true, groupElPresent := true,
        value := "", ariaInvalid := true, errorText := "Name is required.",
        groupError := true }
    validateName "" = some "Name is required." ∧
      onInput "" f =
        { f with value := "", ariaInvalid := false, errorText := "", groupError := false } ∧
      onBlur validateName { f with ariaInvalid := false, errorText := "", groupError := false } =
        { f with ariaInvalid := true, errorText := "Name is required.", groupError := true } := by
  refine ⟨by decide, (c5_input_clears_optimistically "" _ (by decide)).1 rfl, ?_⟩
  exact (c5_input_clears_optimistically "" _ (by decide)).2.2 validateName "Name is required." (by decide)

/-- Claim C10: a field whose input element is missing makes validateField
return null without touching anything; with all three inputs missing,
validateAll reports the untouched form valid and a submission proceeds to
the send. -/
theorem c10_missing_inputs_reported_valid (sendOk : Bool) (p : PageState)
    (h1 : p.form.nameF.inputPresent = false)
    (h2 : p.form.emailF.inputPresent = false)
    (h3 : p.form.messageF.inputPresent = false) :
    validateField validateName p.form.nameF = (p.form.nameF, none) ∧
    validateField validateEmail p.form.emailF = (p.form.emailF, none) ∧
    validateField validateMessage p.form.messageF = (p.form.messageF, none) ∧
    validateAll p.form = (p.form, true) ∧
    (handleSubmit sendOk p).sendStarted = true := by
  have vn : validateField validateName p.form.nameF = (p.form.nameF, none) := by
    simp [validateField, h1]
  have ve : validateField validateEmail p.form.emailF = (p.form.emailF, none) := by
    simp [validateField, h2]
  have vm : validateField validateMessage p.form.messageF = (p.form.messageF, none) := by
    simp [validateField, h3]
  have hall : validateAll p.form = (p.form, true) := by
    unfold validateAll
    rw [vn, ve, vm]
    rfl
  refine ⟨vn, ve, vm, hall, ?_⟩
  cases sendOk <;> simp [handleSubmit, hall]

/-- Witness for C10: a page whose three field inputs are all absent. -/
theorem c10_witness :
    let f0 : FieldDom :=
      { inputPresent := false, errorElPresent := true, groupElPresent := true,
        value := "", ariaInvalid := false, errorText := "", groupError := false }
    let p : PageState :=
      { form := { nameF := f0, emailF := f0, messageF := f0 },
        btn := setSubmitLoading false, groupsHidden := false, actionsHidden := false,
        successHidden := true, submitErrorEl := none, errElCreations := 0 }
    validateAll p.form = (p.form, true) ∧ (handleSubmit true p).sendStarted = true := by
  refine ⟨(c10_missing_inputs_reported_valid true _ rfl rfl rfl).2.2.2.1, ?_⟩
  exact (c10_missing_inputs_reported_valid true _ rfl rfl rfl).2.2.2.2

/-! ### Experience accordion (initExperience, identical in both source files)

The entries are the open flags of the details elements, in document order.
The toggle handler of entry i runs after the native open flag has changed:
when the entry is open it walks every other entry and removes its open flag. -/

/-- The forEach over detailsEls inside the toggle handler, walking the list
with its running index j: every entry other than i loses its open flag. -/
def closeOthers (i : Nat) : Nat → List Bool → List Bool
  | _, [] => []
  | j, b :: rest => (if j = i then b else false) :: closeOthers i (j + 1) rest

/-- The toggle handler of entry i: only acts when that entry is open. -/
def accToggle (i : Nat) (l : List Bool) : List Bool :=
  if l.getD i false then closeOthers i 0 l else l

/-- A user interaction on entry i: the native details element flips its open
flag first, then the toggle event fires and the handler runs. -/
inductive AccEvent
  | openEntry (i : Nat)
  | closeEntry (i : Nat)

/-- One event followed by its toggle handler. -/
def accStep (l : List Bool) : AccEvent → List Bool
  | .openEntry i => accToggle i (l.set i true)
  | .closeEntry i => accToggle i (l.set i false)

/-- Number of entries currently open. -/
def openCount (l : List Bool) : Nat := l.count true

theorem closeOthers_count_zero (l : List Bool) (i : Nat) :
    ∀ j : Nat, i < j → (closeOthers i j l).count true = 0 := by
  induction l with
  | nil => intro j _; rfl
  | cons b rest ih =>
    intro j hij
    have hj : ¬ j = i := by omega
    simp [closeOthers, hj, List.count_cons, ih (j + 1) (by omega)]

theorem closeOthers_count_le (l : List Bool) (i : Nat) :
    ∀ j : Nat, (closeOthers i j l).count true ≤ 1 := by
  induction l with
  | nil => intro j; simp [closeOthers]
  | cons b rest ih =>
    intro j
    by_cases hj : j = i
    · subst hj
      have h0 := closeOthers_count_zero rest j (j + 1) (by omega)
      simp [closeOthers, List.count_cons, h0]
      cases b <;> simp
    · simpa [closeOthers, hj, List.count_cons] using ih (j + 1)

theorem count_set_false_le (l : List Bool) :
    ∀ i : Nat, ((l.set i false).count true) ≤ l.count true := by
  induction l with
  | nil => intro i; simp
  | cons b rest ih =>
    intro i
    cases i with
    | zero => cases b <;> simp [List.count_cons]
    | succ i => simpa [List.count_cons] using ih i

theorem set_of_length_le (l : List Bool) :
    ∀ (i : Nat) (v : Bool), l.length ≤ i → l.set i v = l := by
  induction l with
  | nil => intro i v _; rfl
  | cons b rest ih =>
    intro i v h
    cases i with
    | zero => simp at h
    | succ i => simp [List.set, ih i v (by simpa using h)]

theorem getD_set_true (l : List Bool) :
    ∀ i : Nat, i < l.length → (l.set i true).getD i false = true := by
  induction l with
  | nil => intro i h; simp at h
  | cons b rest ih =>
    intro i h
    cases i with
    | zero => rfl
    | succ i => simpa using ih i (by simpa using h)

theorem closeOthers_getD (i : Nat) (m : List Bool) :
    ∀ (k t : Nat),
      (closeOthers i k m).getD t false = if k + t = i then m.getD t false else false := by
  induction m with
  | nil => intro k t; simp [closeOthers]
  | cons b rest ih =>
    intro k t
    cases t with
    | zero => simp [closeOthers]
    | succ t =>
      have harith : k + 1 + t = k + (t + 1) := by omega
      simp only [closeOthers, List.getD_cons_succ, ih (k + 1) t, harith]

theorem accStep_count_le (l : List Bool) (e : AccEvent)
    (h : openCount l ≤ 1) : openCount (accStep l e) ≤ 1 := by
  cases e with
  | openEntry i =>
    have hstep : accStep l (.openEntry i) = accToggle i (l.set i true) := rfl
    rw [hstep]
    unfold accToggle openCount
    by_cases hd : (l.set i true).getD i false = true
    · rw [if_pos hd]
      exact closeOthers_count_le _ i 0
    · rw [if_neg hd]
      by_cases hlen : i < l.length
      · exact absurd (getD_set_true l i hlen) hd
      · rw [set_of_length_le l i true (by omega)]
        exact h
  | closeEntry i =>
    have hstep : accStep l (.closeEntry i) = accToggle i (l.set i false) := rfl
    rw [hstep]
    unfold accToggle openCount
    by_cases hd : (l.set i false).getD i false = true
    · rw [if_pos hd]
      exact closeOthers_count_le _ i 0
    · rw [if_neg hd]
      exact le_trans (count_set_false_le l i) h

theorem accordion_inv (events : List AccEvent) :
    ∀ l : List Bool, openCount l ≤ 1 → openCount (events.foldl accStep l) ≤ 1 := by
  induction events with
  | nil => intro l h; simpa using h
  | cons e rest ih =>
    intro l h
    exact ih (accStep l e) (accStep_count_le l e h)

/-- Claim C6: starting from any number of closed entries, after any sequence
of open and close interactions (each followed by its toggle handler) at most
one entry is open; moreover opening entry i removes the open flag of every
other entry j, whatever the prior state. -/
theorem c6_at_most_one_open (n : Nat) (events : List AccEvent) :
    openCount (events.foldl accStep (List.replicate n false)) ≤ 1 ∧
    (∀ (l : List Bool) (i j : Nat), i < l.length → j ≠ i →
      (accStep l (.openEntry i)).getD j false = false) := by
  constructor
  · refine accordion_inv events (List.replicate n false) ?_
    have hz : (List.replicate n false).count true = 0 := by
      induction n with
      | zero => rfl
      | succ m ihm => simp [List.replicate, List.count_cons, ihm]
    simp [openCount, hz]
  · intro l i j hi hj
    have hstep : accStep l (.openEntry i) = accToggle i (l.set i true) := rfl
    have hset : (l.set i true).getD i false = true := getD_set_true l i hi
    rw [hstep]
    unfold accToggle
    rw [if_pos hset, closeOthers_getD]
    simp [hj]

/-- Witness for C6: with entry 0 open, opening entry 1 closes entry 0, and a
concrete event sequence ends with at most one entry open. -/
theorem c6_witness :
    openCount ([AccEvent.openEntry 0, AccEvent.openEntry 2,
      AccEvent.openEntry 1].foldl accStep (List.replicate 3 false)) ≤ 1 ∧
    (accStep [true, true, false] (.openEntry 1)).getD 0 false = false :=
  ⟨(c6_at_most_one_open 3 [AccEvent.openEntry 0, AccEvent.openEntry 2,
      AccEvent.openEntry 1]).1,
   (c6_at_most_one_open 3 []).2 [true, true, false] 1 0 (by decide) (by decide)⟩

/-! ### Section-highlight tracker (initNavHighlight)

ratioMap is an insertion-ordered association list from section id to its
last reported intersection ratio; the observer callback first writes the
ratios of the delivered entries into the map, then scans the whole map with
a running topId and topRatio, updating on a strictly greater ratio only,
and calls setActive on the winner when one was found. setActive leaves the
active id unchanged when it equals the winner, so the resulting active id
is the winner either way. -/

/-- One step of the ratioMap.forEach scan: strictly greater ratios win. -/
def scanStep (acc : Option String × ℚ) (p : String × ℚ) : Option String × ℚ :=
  if p.2 > acc.2 then (some p.1, p.2) else acc

/-- The full scan, starting from topId = null and topRatio = 0. -/
def scanTop (entries : List (String × ℚ)) : Option String × ℚ :=
  entries.foldl scanStep (none, 0)

/-- Map.set on the insertion-ordered map: overwrite in place when the key
exists, append otherwise. Observed sections are pre-seeded, so the update
branch is the one taken in the module. -/
def mapSet (m : List (String × ℚ)) (key : String) (v : ℚ) : List (String × ℚ) :=
  if m.any (fun p => p.1 == key) then
    m.map (fun p => if p.1 == key then (p.1, v) else p)
  else m ++ [(key, v)]

/-- The entries.forEach writing every delivered ratio into the map. -/
def applyEntries (m : List (String × ℚ)) (updates : List (String × ℚ)) :
    List (String × ℚ) :=
  updates.foldl (fun acc u => mapSet acc u.1 u.2) m

/-- The IntersectionObserver callback: update the map, scan it, and set the
winner active when the scan found one. -/
def observerCallback (updates : List (String × ℚ)) (m : List (String × ℚ))
    (activeId : Option String) : List (String × ℚ) × Option String :=
  let m2 := applyEntries m updates
  match (scanTop m2).1 with
  | some topId => (m2, some topId)
  | none => (m2, activeId)

/-- Counterexample to claim C7: sections a and b are tracked, b is the
active section (it alone was visible), then one callback reports the equal
non-zero ratio one half for both. Both ratios are maximal, yet the active
entry flips from b to a: the strict comparison lets the first entry in map
order win a tie, not the previously active section. -/
theorem c7_counterexample :
    (observerCallback [("a", 1/2), ("b", 1/2)] [("a", 0), ("b", 1)] (some "b")).2 =
      some "a" ∧
    some "a" ≠ some ("b" : String) ∧
    (1 / 2 : ℚ) ≠ 0 := by
  refine ⟨?_, by decide, by norm_num⟩
  simp [observerCallback, applyEntries, mapSet, scanTop, scanStep]

/-- The running maximum of the ratios in the map, seeded with r. -/
def listMaxFrom (r : ℚ) (entries : List (String × ℚ)) : ℚ :=
  entries.foldl (fun m p => max m p.2) r

theorem listMaxFrom_of_le (l : List (String × ℚ)) :
    ∀ r : ℚ, (∀ p ∈ l, p.2 ≤ r) → listMaxFrom r l = r := by
  induction l with
  | nil => intro r _; rfl
  | cons p rest ih =>
    intro r h
    have hm : max r p.2 = r := max_eq_left (h p (by simp))
    have hc : listMaxFrom r (p :: rest) = listMaxFrom (max r p.2) rest := rfl
    rw [hc, hm]
    exact ih r (fun q hq => h q (by simp [hq]))

theorem le_listMaxFrom (l : List (String × ℚ)) :
    ∀ r : ℚ, r ≤ listMaxFrom r l := by
  induction l with
  | nil => intro r; exact le_refl r
  | cons p rest ih =>
    intro r
    have hc : listMaxFrom r (p :: rest) = listMaxFrom (max r p.2) rest := rfl
    rw [hc]
    exact le_trans (le_max_left r p.2) (ih (max r p.2))

theorem mem_le_listMaxFrom (l : List (String × ℚ)) :
    ∀ (r : ℚ) (p : String × ℚ), p ∈ l → p.2 ≤ listMaxFrom r l := by
  induction l with
  | nil => intro r p hp; simp at hp
  | cons q rest ih =>
    intro r p hp
    have hc : listMaxFrom r (q :: rest) = listMaxFrom (max r q.2) rest := rfl
    rcases List.mem_cons.mp hp with h | h
    · subst h
      rw [hc]
      exact le_trans (le_max_right r p.2) (le_listMaxFrom rest (max r p.2))
    · rw [hc]; exact ih (max r q.2) p h

theorem scan_of_le (l : List (String × ℚ)) :
    ∀ acc : Option String × ℚ, (∀ p ∈ l, p.2 ≤ acc.2) →
      l.foldl scanStep acc = acc := by
  induction l with
  | nil => intro acc _; rfl
  | cons p rest ih =>
    intro acc h
    have hs : scanStep acc p = acc := by
      unfold scanStep
      rw [if_neg (not_lt.mpr (h p (by simp)))]
    show rest.foldl scanStep (scanStep acc p) = acc
    rw [hs]
    exact ih acc (fun q hq => h q (by simp [hq]))

theorem listMaxFrom_attained (l : List (String × ℚ)) :
    ∀ r : ℚ, listMaxFrom r l = r ∨ ∃ p ∈ l, p.2 = listMaxFrom r l := by
  induction l with
  | nil => intro r; exact Or.inl rfl
  | cons p rest ih =>
    intro r
    have hc : listMaxFrom r (p :: rest) = listMaxFrom (max r p.2) rest := rfl
    rcases ih (max r p.2) with h | ⟨q, hq, heq⟩
    · by_cases hle : p.2 ≤ r
      · left; rw [hc, h, max_eq_left hle]
      · right
        exact ⟨p, by simp, by rw [hc, h, max_eq_right (le_of_not_le hle)]⟩
    · right
      exact ⟨q, by simp [hq], by rw [hc, ← heq]⟩

/-- Characterisation of the strict-greater scan: starting above every ratio
it keeps its accumulator; otherwise it ends on the first entry in map order
whose ratio equals the running maximum. -/
theorem scan_spec (l : List (String × ℚ)) :
    ∀ (id0 : Option String) (r0 : ℚ), (∃ p ∈ l, r0 < p.2) →
      l.foldl scanStep (id0, r0) =
        ((l.find? fun p => decide (p.2 = listMaxFrom r0 l)).map Prod.fst,
          listMaxFrom r0 l) := by
  induction l with
  | nil => intro id0 r0 h; simp at h
  | cons p rest ih =>
    intro id0 r0 hex
    have hc : listMaxFrom r0 (p :: rest) = listMaxFrom (max r0 p.2) rest := rfl
    have hfold : (p :: rest).foldl scanStep (id0, r0) =
        rest.foldl scanStep (scanStep (id0, r0) p) := rfl
    by_cases hp : r0 < p.2
    · have hstep : scanStep (id0, r0) p = (some p.1, p.2) := by
        unfold scanStep; rw [if_pos hp]
      have hmax : max r0 p.2 = p.2 := max_eq_right (le_of_lt hp)
      by_cases hrest : ∃ q ∈ rest, p.2 < q.2
      · obtain ⟨q, hqmem, hqlt⟩ := hrest
        have hM : p.2 < listMaxFrom p.2 rest :=
          lt_of_lt_of_le hqlt (mem_le_listMaxFrom rest p.2 q hqmem)
        have hne : ¬ (p.2 = listMaxFrom p.2 rest) := ne_of_lt hM
        rw [hfold, hstep, ih (some p.1) p.2 ⟨q, hqmem, hqlt⟩, hc, hmax]
        simp [List.find?, decide_eq_false hne]
      · push_neg at hrest
        have hall : ∀ q ∈ rest, q.2 ≤ (some p.1, p.2).2 := fun q hq => hrest q hq
        have hMeq : listMaxFrom p.2 rest = p.2 := listMaxFrom_of_le rest p.2 hrest
        rw [hfold, hstep, scan_of_le rest _ hall, hc, hmax, hMeq]
        simp [List.find?]
    · have hstep : scanStep (id0, r0) p = (id0, r0) := by
        unfold scanStep; rw [if_neg hp]
      have hmax : max r0 p.2 = r0 := max_eq_left (le_of_not_lt hp)
      obtain ⟨q, hqmem, hqlt⟩ := hex
      have hqrest : q ∈ rest := by
        rcases List.mem_cons.mp hqmem with h | h
        · exfalso; rw [h] at hqlt; exact hp hqlt
        · exact h
      have hM : r0 < listMaxFrom r0 rest :=
        lt_of_lt_of_le hqlt (mem_le_listMaxFrom rest r0 q hqrest)
      have hne : ¬ (p.2 = listMaxFrom r0 rest) :=
        ne_of_lt (lt_of_le_of_lt (le_of_not_lt hp) hM)
      rw [hfold, hstep, ih id0 r0 ⟨q, hqrest, hqlt⟩, hc, hmax]
      simp [List.find?, decide_eq_false hne]

/-- Amended claim C7: after a callback, when every ratio in the updated map
is zero the active entry is unchanged; when some ratio is positive, the
active entry becomes the first section in map (observation) order whose
ratio equals the maximum — so on a tie of equal non-zero maximal ratios the
earliest tied section wins, and the previously active section stays active
only when it is that earliest tied section. -/
theorem c7_amended_first_at_max_wins (updates m : List (String × ℚ))
    (activeId : Option String) :
    ((∀ p ∈ applyEntries m updates, p.2 ≤ 0) →
      (observerCallback updates m activeId).2 = activeId) ∧
    ((∃ p ∈ applyEntries m updates, 0 < p.2) →
      (observerCallback updates m activeId).2 =
        ((applyEntries m updates).find?
          (fun p => decide (p.2 = listMaxFrom 0 (applyEntries m updates)))).map
            Prod.fst) := by
  constructor
  · intro h
    have hs : scanTop (applyEntries m updates) = (none, 0) :=
      scan_of_le _ (none, 0) h
    simp [observerCallback, hs]
  · intro hex
    have hs := scan_spec (applyEntries m updates) none 0 hex
    have hs2 : (scanTop (applyEntries m updates)).1 =
        ((applyEntries m updates).find?
          (fun p => decide (p.2 = listMaxFrom 0 (applyEntries m updates)))).map
            Prod.fst := by
      rw [scanTop, hs]
    obtain ⟨q, hqmem, hqpos⟩ := hex
    have hMpos : 0 < listMaxFrom 0 (applyEntries m updates) :=
      lt_of_lt_of_le hqpos (mem_le_listMaxFrom _ 0 q hqmem)
    have hatt : ∃ p ∈ applyEntries m updates,
        p.2 = listMaxFrom 0 (applyEntries m updates) := by
      rcases listMaxFrom_attained (applyEntries m updates) 0 with h | h
      · exact absurd h (ne_of_gt hMpos)
      · exact h
    have hfs : ((applyEntries m updates).find?
        (fun p => decide (p.2 = listMaxFrom 0 (applyEntries m updates)))).isSome := by
      rw [List.find?_isSome]
      obtain ⟨p, hpm, hpe⟩ := hatt
      exact ⟨p, hpm, by simp [hpe]⟩
    obtain ⟨w, hw⟩ := Option.isSome_iff_exists.mp hfs
    simp [observerCallback, hs2, hw]

/-- Witness for the amended C7 at the tied concrete map: the first tied
section a wins although b was active. -/
theorem c7_amended_witness :
    (∃ p ∈ applyEntries [("a", 0), ("b", 1)] [("a", 1/2), ("b", 1/2)],
      (0 : ℚ) < p.2) ∧
    (observerCallback [("a", 1/2), ("b", 1/2)] [("a", 0), ("b", 1)] (some "b")).2 =
      ((applyEntries [("a", 0), ("b", 1)] [("a", 1/2), ("b", 1/2)]).find?
        (fun p => decide (p.2 =
          listMaxFrom 0 (applyEntries [("a", 0), ("b", 1)] [("a", 1/2), ("b", 1/2)])))).map
            Prod.fst := by
  have hex : ∃ p ∈ applyEntries [("a", 0), ("b", 1)] [("a", 1/2), ("b", 1/2)],
      (0 : ℚ) < p.2 := by
    refine ⟨("a", 1/2), ?_, by norm_num⟩
    simp [applyEntries, mapSet]
  exact ⟨hex, (c7_amended_first_at_max_wins _ _ _).2 hex⟩

/-! ### Skill filter (initSkillFilter)

src/script.js hides non-matching items through a data-hidden attribute;
the variant file src/unnamed/part_000 hides them through an inline
display:none style. Both count the visible items while walking the list and
then set the hidden flag of the empty-state element, when present, to
whether any item stayed visible. -/

/-- A skill item of src/script.js: its data-category attribute (null when
absent) and whether data-hidden is set. -/
structure SkillItemA where
  category : Option String
  dataHidden : Bool
deriving DecidableEq, Repr

/-- A skill item of the variant file: category plus display:none. -/
structure SkillItemB where
  category : Option String
  displayNone : Bool
deriving DecidableEq, Repr

/-- The match test shared by both implementations: the filter "all" matches
everything, otherwise the category attribute must equal the filter. -/
def skillMatches (activeFilter : String) (category : Option String) : Bool :=
  activeFilter == "all" || category == some activeFilter

/-- One iteration of the forEach in src/script.js applyFilter. -/
def filterStepA (activeFilter : String) (acc : List SkillItemA × Nat)
    (item : SkillItemA) : List SkillItemA × Nat :=
  if skillMatches activeFilter item.category then
    (acc.1 ++ [{ item with dataHidden := false }], acc.2 + 1)
  else
    (acc.1 ++ [{ item with dataHidden := true }], acc.2)

/-- applyFilter of src/script.js: walk the items, then set the hidden flag
of the empty-state element (when it exists) to visibleCount > 0. -/
def applyFilterA (activeFilter : String) (items : List SkillItemA)
    (emptyHidden : Option Bool) : List SkillItemA × Option Bool :=
  let r := items.foldl (filterStepA activeFilter) ([], 0)
  (r.1, emptyHidden.map fun _ => decide (0 < r.2))

/-- One iteration of the for loop in the variant applyFilter. -/
def filterStepB (activeFilter : String) (acc : List SkillItemB × Nat)
    (item : SkillItemB) : List SkillItemB × Nat :=
  if skillMatches activeFilter item.category then
    (acc.1 ++ [{ item with displayNone := false }], acc.2 + 1)
  else
    (acc.1 ++ [{ item with displayNone := true }], acc.2)

/-- applyFilter of src/unnamed/part_000. -/
def applyFilterB (activeFilter : String) (items : List SkillItemB)
    (emptyHidden : Option Bool) : List SkillItemB × Option Bool :=
  let r := items.foldl (filterStepB activeFilter) ([], 0)
  (r.1, emptyHidden.map fun _ => decide (0 < r.2))

theorem filterA_go (activeFilter : String) (items : List SkillItemA) :
    ∀ (acc : List SkillItemA) (n : Nat),
      items.foldl (filterStepA activeFilter) (acc, n) =
        (acc ++ items.map (fun it =>
            { it with dataHidden := !skillMatches activeFilter it.category }),
          n + (items.filter (fun it => skillMatches activeFilter it.category)).length) := by
  induction items with
  | nil => intro acc n; simp
  | cons it rest ih =>
    intro acc n
    by_cases h : skillMatches activeFilter it.category = true
    · have hstep : filterStepA activeFilter (acc, n) it =
          (acc ++ [{ it with dataHidden := false }], n + 1) := by
        simp [filterStepA, h]
      have : (it :: rest).foldl (filterStepA activeFilter) (acc, n) =
          rest.foldl (filterStepA activeFilter) (filterStepA activeFilter (acc, n) it) := rfl
      rw [this, hstep, ih]
      simp [h, List.filter_cons]
      omega
    · have hstep : filterStepA activeFilter (acc, n) it =
          (acc ++ [{ it with dataHidden := true }], n) := by
        simp [filterStepA, h]
      have : (it :: rest).foldl (filterStepA activeFilter) (acc, n) =
          rest.foldl (filterStepA activeFilter) (filterStepA activeFilter (acc, n) it) := rfl
      rw [this, hstep, ih]
      simp [h, List.filter_cons]

theorem filterB_go (activeFilter : String) (items : List SkillItemB) :
    ∀ (acc : List SkillItemB) (n : Nat),
      items.foldl (filterStepB activeFilter) (acc, n) =
        (acc ++ items.map (fun it =>
            { it with displayNone := !skillMatches activeFilter it.category }),
          n + (items.filter (fun it => skillMatches activeFilter it.category)).length) := by
  induction items with
  | nil => intro acc n; simp
  | cons it rest ih =>
    intro acc n
    by_cases h : skillMatches activeFilter it.category = true
    · have hstep : filterStepB activeFilter (acc, n) it =
          (acc ++ [{ it with displayNone := false }], n + 1) := by
        simp [filterStepB, h]
      have : (it :: rest).foldl (filterStepB activeFilter) (acc, n) =
          rest.foldl (filterStepB activeFilter) (filterStepB activeFilter (acc, n) it) := rfl
      rw [this, hstep, ih]
      simp [h, List.filter_cons]
      omega
    · have hstep : filterStepB activeFilter (acc, n) it =
          (acc ++ [{ it with displayNone := true }], n) := by
        simp [filterStepB, h]
      have : (it :: rest).foldl (filterStepB activeFilter) (acc, n) =
          rest.foldl (filterStepB activeFilter) (filterStepB activeFilter (acc, n) it) := rfl
      rw [this, hstep, ih]
      simp [h, List.filter_cons]

/-- Claim C8: in both implementations, applying a filter unhides exactly the
items whose category matches the selected one (every item for "all", since
that filter matches every category) and hides the rest, and when the
empty-state element exists it ends hidden exactly when some item matched,
so it is visible if and only if zero items match. -/
theorem c8_filter_shows_matching (activeFilter : String)
    (itemsA : List SkillItemA) (itemsB : List SkillItemB)
    (ehA ehB : Option Bool) (b0 : Bool) :
    (applyFilterA activeFilter itemsA ehA).1 =
      itemsA.map (fun it =>
        { it with dataHidden := !skillMatches activeFilter it.category }) ∧
    (applyFilterA activeFilter itemsA ehA).2 =
      ehA.map (fun _ => decide (0 <
        (itemsA.filter (fun it => skillMatches activeFilter it.category)).length)) ∧
    (applyFilterB activeFilter itemsB ehB).1 =
      itemsB.map (fun it =>
        { it with displayNone := !skillMatches activeFilter it.category }) ∧
    (applyFilterB activeFilter itemsB ehB).2 =
      ehB.map (fun _ => decide (0 <
        (itemsB.filter (fun it => skillMatches activeFilter it.category)).length)) ∧
    ((applyFilterA activeFilter itemsA (some b0)).2 = some false ↔
      (itemsA.filter (fun it => skillMatches activeFilter it.category)).length = 0) ∧
    (∀ c : Option String, skillMatches "all" c = true) := by
  have hA := filterA_go activeFilter itemsA [] 0
  have hB := filterB_go activeFilter itemsB [] 0
  refine ⟨?_, ?_, ?_, ?_, ?_, ?_⟩
  · simp [applyFilterA, hA]
  · simp [applyFilterA, hA]
  · simp [applyFilterB, hB]
  · simp [applyFilterB, hB]
  · simp [applyFilterA, hA]
  · intro c; simp [skillMatches]

/-! ### Module initialisation guards

Each init function queries its elements and returns before registering
anything when a required element is absent. A page is abstracted by the
counts and presence flags those queries observe; the effect of one init
call is the number of event listeners it registers, the number of DOM
mutations it performs at init time (initExperience writes one initial
aria-expanded per summary), and whether it threw. initSmoothScroll needs no
element: it registers one document-level click listener whose checks run
per click, modelled separately by smoothScrollClick. -/

structure Page where
  navLinkCount : Nat
  sectionCount : Nat
  navToggle : Bool
  primaryNav : Bool
  navLinksInNav : Nat
  filterBtnCount : Nat
  skillItemCount : Nat
  skillsFilterGroup : Bool
  skillsList : Bool
  detailsCount : Nat
  summaryCount : Nat
  contactForm : Bool
  submitBtn : Bool
  successEl : Bool
  fieldInputCount : Nat
  copyBtn : Bool
  copyConfirm : Bool
deriving DecidableEq, Repr

structure InitEffect where
  listeners : Nat
  mutations : Nat
  threw : Bool
deriving DecidableEq, Repr

/-- The effect of an init function that returned early. -/
def noEffect : InitEffect := { listeners := 0, mutations := 0, threw := false }

/-- initSmoothScroll: one unconditional document click listener. -/
def initSmoothScrollEff (_p : Page) : InitEffect :=
  { listeners := 1, mutations := 0, threw := false }

/-- initNavHighlight: guarded on nav links and sections; wires the observer
and one debounced resize listener, mutating nothing at init time. -/
def initNavHighlightEff (p : Page) : InitEffect :=
  if p.navLinkCount == 0 || p.sectionCount == 0 then noEffect
  else { listeners := 1, mutations := 0, threw := false }

/-- initMobileNav: guarded on the toggle and the nav; wires the toggle
click, one close listener per nav link, and two document listeners. -/
def initMobileNavEff (p : Page) : InitEffect :=
  if !p.navToggle || !p.primaryNav then noEffect
  else { listeners := 1 + p.navLinksInNav + 2, mutations := 0, threw := false }

/-- initSkillFilter of src/script.js: guarded on buttons and items; wires a
click per button and a keydown on the group when it exists. -/
def initSkillFilterEff (p : Page) : InitEffect :=
  if p.filterBtnCount == 0 || p.skillItemCount == 0 then noEffect
  else
    { listeners := p.filterBtnCount + (if p.skillsFilterGroup then 1 else 0),
      mutations := 0, threw := false }

/-- initSkillFilter of src/unnamed/part_000: also requires the filter group
and the skills list before querying buttons and items. -/
def initSkillFilterVariantEff (p : Page) : InitEffect :=
  if !p.skillsFilterGroup || !p.skillsList then noEffect
  else if p.filterBtnCount == 0 || p.skillItemCount == 0 then noEffect
  else { listeners := p.filterBtnCount, mutations := 0, threw := false }

/-- initExperience: guarded on the details entries; wires a toggle listener
per entry plus keydown and toggle per summary, and performs the initial
aria-expanded sync on every summary. -/
def initExperienceEff (p : Page) : InitEffect :=
  if p.detailsCount == 0 then noEffect
  else
    { listeners := p.detailsCount + 2 * p.summaryCount,
      mutations := p.summaryCount, threw := false }

/-- initContactForm: guarded on the form, the submit button and the success
element; wires blur and input per present field input plus the submit
handler. -/
def initContactFormEff (p : Page) : InitEffect :=
  if !p.contactForm || !p.submitBtn || !p.successEl then noEffect
  else { listeners := 2 * p.fieldInputCount + 1, mutations := 0, threw := false }

/-- initCopyEmail of src/unnamed/part_000: guarded on the button and the
confirmation element. -/
def initCopyEmailEff (p : Page) : InitEffect :=
  if !p.copyBtn || !p.copyConfirm then noEffect
  else { listeners := 2, mutations := 0, threw := false }

/-- Whether any init function of either file threw during page load. -/
def initAllThrew (p : Page) : Bool :=
  (initSmoothScrollEff p).threw || (initNavHighlightEff p).threw ||
  (initMobileNavEff p).threw || (initSkillFilterEff p).threw ||
  (initSkillFilterVariantEff p).threw || (initExperienceEff p).threw ||
  (initContactFormEff p).threw || (initCopyEmailEff p).threw

/-- What the smooth-scroll click handler sees for one click: the href of
the closest in-page anchor ancestor (none when there is none), whether the
target element exists, and whether it is natively focusable. -/
structure ClickCtx where
  linkHref : Option String
  targetPresent : Bool
  targetNativelyFocusable : Bool
deriving DecidableEq, Repr

structure ClickEffect where
  preventedDefault : Bool
  scrolled : Bool
  mutations : Nat
  threw : Bool
deriving DecidableEq, Repr

def noClickEffect : ClickEffect :=
  { preventedDefault := false, scrolled := false, mutations := 0, threw := false }

/-- The smooth-scroll click handler: early returns for no anchor, a bare
"#" href, and a missing target; otherwise it prevents the default jump,
scrolls, and sets a temporary tabindex on targets that are not natively
focusable. -/
def smoothScrollClick (c : ClickCtx) : ClickEffect :=
  match c.linkHref with
  | none => noClickEffect
  | some href =>
    if href = "#" then noClickEffect
    else if !c.targetPresent then noClickEffect
    else
      { preventedDefault := true, scrolled := true,
        mutations := if c.targetNativelyFocusable then 0 else 1, threw := false }

/-- Claim C9: every element-dependent module checks its required elements
before wiring anything and returns with no listeners, no mutations and no
error when one is absent; no init function of either file ever throws; and
the smooth-scroll module, whose element checks run per click, mutates
nothing at init time and its click handler does nothing when the clicked
anchor or its target is absent. -/
theorem c9_missing_elements_no_op (p : Page) :
    ((p.navLinkCount = 0 ∨ p.sectionCount = 0) → initNavHighlightEff p = noEffect) ∧
    ((p.navToggle = false ∨ p.primaryNav = false) → initMobileNavEff p = noEffect) ∧
    ((p.filterBtnCount = 0 ∨ p.skillItemCount = 0) → initSkillFilterEff p = noEffect) ∧
    ((p.skillsFilterGroup = false ∨ p.skillsList = false ∨ p.filterBtnCount = 0 ∨
        p.skillItemCount = 0) → initSkillFilterVariantEff p = noEffect) ∧
    (p.detailsCount = 0 → initExperienceEff p = noEffect) ∧
    ((p.contactForm = false ∨ p.submitBtn = false ∨ p.successEl = false) →
      initContactFormEff p = noEffect) ∧
    ((p.copyBtn = false ∨ p.copyConfirm = false) → initCopyEmailEff p = noEffect) ∧
    (initSmoothScrollEff p).mutations = 0 ∧
    initAllThrew p = false ∧
    (∀ c : ClickCtx,
      (c.linkHref = none ∨ c.linkHref = some "#" ∨ c.targetPresent = false) →
        smoothScrollClick c = noClickEffect) := by
  refine ⟨?_, ?_, ?_, ?_, ?_, ?_, ?_, rfl, ?_, ?_⟩
  · rintro (h | h) <;> simp [initNavHighlightEff, h]
  · rintro (h | h) <;> simp [initMobileNavEff, h]
  · rintro (h | h) <;> simp [initSkillFilterEff, h]
  · rintro (h | h | h | h) <;> simp [initSkillFilterVariantEff, h]
  · intro h; simp [initExperienceEff, h]
  · rintro (h | h | h) <;> simp [initContactFormEff, h]
  · rintro (h | h) <;> simp [initCopyEmailEff, h]
  · have t1 : (initSmoothScrollEff p).threw = false := rfl
    have t2 : (initNavHighlightEff p).threw = false := by
      unfold initNavHighlightEff noEffect; split <;> rfl
    have t3 : (initMobileNavEff p).threw = false := by
      unfold initMobileNavEff noEffect; split <;> rfl
    have t4 : (initSkillFilterEff p).threw = false := by
      unfold initSkillFilterEff noEffect; split <;> rfl
    have t5 : (initSkillFilterVariantEff p).threw = false := by
      unfold initSkillFilterVariantEff noEffect
      split
      · rfl
      · split <;> rfl
    have t6 : (initExperienceEff p).threw = false := by
      unfold initExperienceEff noEffect; split <;> rfl
    have t7 : (initContactFormEff p).threw = false := by
      unfold initContactFormEff noEffect; split <;> rfl
    have t8 : (initCopyEmailEff p).threw = false := by
      unfold initCopyEmailEff noEffect; split <;> rfl
    simp [initAllThrew, t1, t2, t3, t4, t5, t6, t7, t8]
  · rintro c (h | h | h)
    · simp [smoothScrollClick, h, noClickEffect]
    · simp [smoothScrollClick, h, noClickEffect]
    · cases hl : c.linkHref <;> simp [smoothScrollClick, h, hl, noClickEffect]

/-- Witness for C9 at a page with every element absent and a click with no
anchor under it. -/
theorem c9_witness :
    let p : Page :=
      { navLinkCount := 0, sectionCount := 0, navToggle := false, primaryNav := false,
        navLinksInNav := 0, filterBtnCount := 0, skillItemCount := 0,
        skillsFilterGroup := false, skillsList := false, detailsCount := 0,
        summaryCount := 0, contactForm := false, submitBtn := false,
        successEl := false, fieldInputCount := 0, copyBtn := false, copyConfirm := false }
    initNavHighlightEff p = noEffect ∧ initContactFormEff p = noEffect ∧
      initAllThrew p = false ∧
      smoothScrollClick
        { linkHref := none, targetPresent := false, targetNativelyFocusable := false } =
        noClickEffect := by
  refine ⟨(c9_missing_elements_no_op _).1 (Or.inl rfl),
    (c9_missing_elements_no_op _).2.2.2.2.2.1 (Or.inl rfl),
    (c9_missing_elements_no_op _).2.2.2.2.2.2.2.2.1, ?_⟩
  exact (c9_missing_elements_no_op
    { navLinkCount := 0, sectionCount := 0, navToggle := false, primaryNav := false,
      navLinksInNav := 0, filterBtnCount := 0, skillItemCount := 0,
      skillsFilterGroup := false, skillsList := false, detailsCount := 0,
      summaryCount := 0, contactForm := false, submitBtn := false,
      successEl := false, fieldInputCount := 0, copyBtn := false,
      copyConfirm := false }).2.2.2.2.2.2.2.2.2
    { linkHref := none, targetPresent := false, targetNativelyFocusable := false }
    (Or.inl rfl)

end Resume
